import Mathlib

/-!
Verification of the Pleiades CSV-to-LinkedPlaces transformer
(`scripts/transform-pleiades-lp.js`).

The per-row map callback and its helpers (`getPlace`, `getIndexing`,
`getTypes`, `getDepiction`, `getLinks`, `buildFeature`) are embedded as
executable Lean functions.  JavaScript conventions are made explicit:

* a CSV row is a map from column name to string; a column that is absent
  from the row object (JS `undefined`) is `Option.none`;
* a thrown `TypeError` (calling `.trim()` on `undefined`) is modelled by
  `Except.error`;
* JS numbers produced by `parseFloat` on decimal strings are modelled as
  an exact decimal `mantissa / 10 ^ exp`, with `NaN` a separate
  constructor; `JSNum.toJson` gives the rational value that
  `JSON.stringify` would print (`NaN` prints as `null`);
* the external `moment` library calls used by the script
  (`moment(s, "YYYY-MM-DD").format("DD/MM/YYYY")` and
  `moment(s, "DD/MM/YYYY").year()`) are modelled on their documented
  behaviour for hyphen/slash separated dates, including the
  `"Invalid date"` string returned by `format` on an invalid moment and
  the `NaN` year of an invalid moment;
* the external `wikimedia-commons-file-path` library is kept abstract as
  a function parameter `commonsFn`, since no claim inspects the URL it
  builds.

All string manipulation is implemented over `List Char` so that every
definition evaluates inside the kernel (`rfl`/`decide`).
-/

namespace Pleiades

/-- Trim a character list on both sides, the model of JS `String.prototype.trim`. -/
def trimChars (l : List Char) : List Char :=
  ((l.dropWhile Char.isWhitespace).reverse.dropWhile Char.isWhitespace).reverse

/-- Model of the JS string method `s.trim()`. -/
def jsTrim (s : String) : String :=
  String.mk (trimChars s.data)

/-- Model of the JS expression `s.replace(/\n/g, "")`. -/
def stripNewlines (s : String) : String :=
  String.mk (s.data.filter (fun c => c != '\n'))

/-- JS string coercion of a possibly-undefined value, as in `"prefix" + id`. -/
def jsStr : Option String → String
  | none => "undefined"
  | some s => s

/-- JS truthiness of a possibly-undefined string: `undefined` and `""` are falsy. -/
def jsTruthy : Option String → Bool
  | none => false
  | some s => s != ""

/-- Split a character list at every occurrence of `c`, the model of JS `s.split(c)`. -/
def splitOnChar (c : Char) : List Char → List (List Char)
  | [] => [[]]
  | a :: rest =>
    let r := splitOnChar c rest
    if a == c then [] :: r
    else
      match r with
      | [] => [[a]]
      | g :: gs => (a :: g) :: gs

/-- Model of the JS string method `s.split(sep)` for a one-character separator. -/
def jsSplit (sep : Char) (s : String) : List String :=
  (splitOnChar sep s.data).map String.mk

/-- Model of the JS expression `parts.join(sep)`. -/
def joinSep (sep : String) : List String → String
  | [] => ""
  | [s] => s
  | s :: rest => s ++ sep ++ joinSep sep rest

/-- A JS number as this script produces them: either `NaN` or the exact
decimal value `mantissa / 10 ^ exp` parsed from a decimal string. -/
inductive JSNum where
  | nan : JSNum
  | num (mantissa : Int) (exp : Nat) : JSNum
deriving DecidableEq

/-- The value `JSON.stringify` prints for a coordinate: the exact rational
for a finite number, and `null` (here `Option.none`) for `NaN`. -/
def JSNum.toJson : JSNum → Option ℚ
  | .nan => none
  | .num m e => some ((m : ℚ) / 10 ^ e)

/-- Decimal value of a digit list, most significant first. -/
def digitsToNat (l : List Char) : Nat :=
  l.foldl (fun a c => 10 * a + (c.toNat - 48)) 0

/-- Model of the JS builtin `parseFloat` on ordinary decimal strings:
skip leading whitespace, optional sign, integer digits, optional
fraction; trailing garbage is ignored; no digits at all gives `NaN`.
`parseFloat(undefined)` coerces to the string `"undefined"` and yields `NaN`. -/
def parseFloat : Option String → JSNum
  | none => JSNum.nan
  | some s =>
    let cs := s.data.dropWhile Char.isWhitespace
    let signed : Int × List Char :=
      match cs with
      | '-' :: r => (-1, r)
      | '+' :: r => (1, r)
      | _ => (1, cs)
    let ip := signed.2.takeWhile Char.isDigit
    let rest := signed.2.dropWhile Char.isDigit
    let fp :=
      match rest with
      | '.' :: r => r.takeWhile Char.isDigit
      | _ => []
    if ip.isEmpty && fp.isEmpty then JSNum.nan
    else JSNum.num (signed.1 * (digitsToNat ip * 10 ^ fp.length + digitsToNat fp)) fp.length

/-- Parse a non-empty all-digit character list. -/
def parseNatDigits (l : List Char) : Option Nat :=
  if !l.isEmpty && l.all Char.isDigit then some (digitsToNat l) else none

def isLeapYear (y : Nat) : Bool :=
  y % 4 == 0 && (y % 100 != 0 || y % 400 == 0)

def daysInMonth (y m : Nat) : Nat :=
  if m == 2 then (if isLeapYear y then 29 else 28)
  else if m == 4 || m == 6 || m == 9 || m == 11 then 30
  else 31

def validDate (y m d : Nat) : Bool :=
  decide (1 ≤ m) && decide (m ≤ 12) && decide (1 ≤ d) && decide (d ≤ daysInMonth y m)

/-- Split a date string on `sep` into three numeric components. -/
def parseDateParts (sep : Char) (s : String) : Option (Nat × Nat × Nat) :=
  match (splitOnChar sep s.data).map parseNatDigits with
  | [some a, some b, some c] => some (a, b, c)
  | _ => none

/-- Model of `moment(s, "YYYY-MM-DD")` validity and field extraction:
three hyphen-separated numeric parts forming a real calendar date. -/
def parseYMD (s : String) : Option (Nat × Nat × Nat) :=
  match parseDateParts '-' s with
  | some (y, m, d) => if validDate y m d then some (y, m, d) else none
  | none => none

/-- Model of `moment(s, "DD/MM/YYYY")` validity and field extraction. -/
def parseDMY (s : String) : Option (Nat × Nat × Nat) :=
  match parseDateParts '/' s with
  | some (d, m, y) => if validDate y m d then some (d, m, y) else none
  | none => none

/-- Left-pad a number with zeros to the given width, as moment format tokens do. -/
def padTo (w : Nat) (n : Nat) : String :=
  let s := toString n
  String.mk (List.replicate (w - s.data.length) '0' ++ s.data)

/-- `formatDate` from the source (line 240):
`moment(dateString, "YYYY-MM-DD").format("DD/MM/YYYY")`.
On an invalid or undefined input moment `format` returns the literal
string `"Invalid date"`; it never throws. -/
def formatDate (v : Option String) : String :=
  match v with
  | none => "Invalid date"
  | some s =>
    match parseYMD s with
    | none => "Invalid date"
    | some (y, m, d) => padTo 2 d ++ "/" ++ padTo 2 m ++ "/" ++ padTo 4 y

/-- `yearAdded` from the source (line 242):
`moment(formattedDate, "DD/MM/YYYY").year().toString() || null`.
The year of an invalid moment is `NaN`, whose `toString()` is the truthy
string `"NaN"`, so the `|| null` fallback can never produce `null`. -/
def yearAddedOf (formattedDate : String) : String :=
  match parseDMY formattedDate with
  | none => "NaN"
  | some (_, _, y) => toString y

/-- One entry of the `links` array built by `getLinks` (source lines 162-171). -/
structure LinkEntry where
  identifier : String
  type : String
  label : String
deriving DecidableEq

/-- One entry of the `types` array built by `getTypes` (source lines 76-101). -/
structure TypeEntry where
  identifier : String
  label : String
deriving DecidableEq

/-- One entry of the `depictions` array built by `getDepiction` (source lines 115-121);
`atId` stands for the JSON key `@id`. -/
structure DepictionEntry where
  atId : String
  thumbnail : String
  label : String
deriving DecidableEq

/-- One entry of the `descriptions` array (source line 276). -/
structure DescriptionEntry where
  value : String
deriving DecidableEq

/-- The GeoJSON geometry built by `getPlace` (source lines 26-33). -/
structure Geometry where
  type : String
  coordinates : List JSNum
deriving DecidableEq

/-- Result type of `replaceHyphensInTimePeriodRange` (source lines 263-266):
a falsy input is returned unchanged, otherwise a one-element array. -/
inductive TPKFormatted where
  | passthrough (v : Option String) : TPKFormatted
  | formatted (l : List String) : TPKFormatted
deriving DecidableEq

/-- The `properties` object of a record (source lines 272-275), plus the
`place` key that `buildFeature` adds (line 195); `place = none` models the
key being absent, as it is on `peripleoRecord` before `buildFeature` runs. -/
structure Properties where
  title : Option String
  formattedDate : String
  modifiedDate : String
  authors : Option String
  yearAdded : String
  hasConnectionsWith : Option String
  timePeriods : Option String
  locationPrecision : Option String
  minDate : Option String
  maxDate : Option String
  placeTypes : List String
  timePeriodsKeysFormatted : TPKFormatted
  timePeriodsRange : Option String
  geomes_ids : Option String
  gettytgn_ids : Option String
  idaigaz_ids : Option String
  loc_ids : Option String
  nomisma_ids : Option String
  trismegistos_ids : Option String
  viaf_ids : Option String
  wikipedia_en : Option String
  commonsID : Option String
  place : Option String
deriving DecidableEq

/-- The `peripleoRecord` object (source lines 269-277); `atId` stands for `@id`. -/
structure BaseRecord where
  atId : String
  type : String
  properties : Properties
  descriptions : List DescriptionEntry
deriving DecidableEq

/-- A Feature as assembled by `buildFeature` (source lines 191-207).
`depictions = none` and `types = none` model those keys being absent
(the spreads of `getDepiction` and `getTypes` add nothing); `links` is
always present because `getLinks` always returns a `links` key. -/
structure Feature where
  atId : String
  type : String
  properties : Properties
  descriptions : List DescriptionEntry
  geometry : Geometry
  depictions : Option (List DepictionEntry)
  types : Option (List TypeEntry)
  links : List LinkEntry
deriving DecidableEq

/-- The static `indexing` metadata block (source lines 46-55);
`context` and `type` stand for the JSON keys `@context` and `@type`. -/
structure Indexing where
  context : String
  type : String
  name : String
  description : String
  license : String
  identifier : String
deriving DecidableEq

/-- The output document `fc` (source lines 284-288). -/
structure FeatureCollection where
  type : String
  indexing : Indexing
  features : List Feature
deriving DecidableEq

/-- A parsed CSV row as Papa.parse with `header: true` produces it: one
optional string per recognized column.  `none` models a column missing
from the row object (JS `undefined`), as happens for short rows such as
the row a trailing newline produces; `some ""` is a present-but-blank
cell.  The defaults make `{}` the fully blank row of a well-formed CSV. -/
structure Row where
  authors : Option String := some ""
  bbox : Option String := some ""
  connectsWith : Option String := some ""
  created : Option String := some ""
  creators : Option String := some ""
  currentVersion : Option String := some ""
  description : Option String := some ""
  extent : Option String := some ""
  featureTypes : Option String := some ""
  geoContext : Option String := some ""
  hasConnectionsWith : Option String := some ""
  id : Option String := some ""
  locationPrecision : Option String := some ""
  maxDate : Option String := some ""
  minDate : Option String := some ""
  modified : Option String := some ""
  path : Option String := some ""
  reprLat : Option String := some ""
  reprLatLong : Option String := some ""
  reprLong : Option String := some ""
  tags : Option String := some ""
  timePeriods : Option String := some ""
  timePeriodsKeys : Option String := some ""
  timePeriodsRange : Option String := some ""
  title : Option String := some ""
  uid : Option String := some ""
  chronique_ids : Option String := some ""
  dare_ids : Option String := some ""
  geomes_ids : Option String := some ""
  gettytgn_ids : Option String := some ""
  idaigaz_ids : Option String := some ""
  loc_ids : Option String := some ""
  manto_ids : Option String := some ""
  nomisma_ids : Option String := some ""
  topostext_ids : Option String := some ""
  trismegistos_ids : Option String := some ""
  viaf_ids : Option String := some ""
  vici_ids : Option String := some ""
  wikipedia_en : Option String := some ""
  commonsID : Option String := some ""
  item : Option String := some ""
  wikiInstanceOf : Option String := some ""
  wikidataEntityID : Option String := some ""
  heritage_category : Option String := some ""
  site_sub_type : Option String := some ""

/-- `getPlace` (source lines 26-33): a Point from `parseFloat` of the raw strings. -/
def getPlace (lon lat : Option String) : Geometry :=
  { type := "Point", coordinates := [parseFloat lon, parseFloat lat] }

/-- `getIndexing` (source lines 46-55). -/
def getIndexing : Indexing :=
  { context := "https://schema.org/"
    type := "Dataset"
    name := "Pleiades - AWMC on Peripleo"
    description := "An enriched dataset of Pleiades data"
    license := "https://creativecommons.org/licenses/by/3.0/"
    identifier := "https://atlantides.org/downloads/pleiades/dumps/" }

/-- `getTypes` (source lines 69-103): one entry per complete pair,
first `wikiInstanceOf + site_sub_type`, then `wikidataEntityID +
heritage_category`; the final reduce yields an object with no `types`
key at all when no pair is complete, modelled by `none`. -/
def getTypes (row : Row) : Option (List TypeEntry) :=
  let first :=
    if jsTruthy row.wikiInstanceOf && jsTruthy row.site_sub_type then
      [{ identifier := "https://www.wikidata.org/wiki/" ++ row.wikiInstanceOf.getD ""
         label := "A Wikidata type: " ++ row.site_sub_type.getD "" : TypeEntry }]
    else []
  let second :=
    if jsTruthy row.wikidataEntityID && jsTruthy row.heritage_category then
      [{ identifier := "https://www.wikidata.org/wiki/" ++ row.wikidataEntityID.getD ""
         label := "A Wikidata type: " ++ row.heritage_category.getD "" : TypeEntry }]
    else []
  let all := first ++ second
  if all.isEmpty then none else some all

/-- `getDepiction` (source lines 112-122): absent (`none`) when
`commonsID` is falsy; `commonsFn` abstracts the external
`wikimedia-commons-file-path` library call `commons("File:" + id, 800)`. -/
def getDepiction (commonsFn : String → Nat → String) (row : Row) :
    Option (List DepictionEntry) :=
  if !jsTruthy row.commonsID then none
  else
    let wikicommons := commonsFn ("File:" ++ row.commonsID.getD "") 800
    some [{ atId := wikicommons
            thumbnail := wikicommons
            label := "A depiction of the heritage site sourced via Wikimedia Commons" }]

/-- The fixed authority table of `getLinks` (source lines 140-160):
(column key, URL prefix, label prefix), in object-literal order. -/
def linkTable : List (String × String × String) :=
  [ ("item", "http://www.wikidata.org/entity/", "A Wikidata entity: "),
    ("wikipedia_en", "https://en.wikipedia.org/wiki/", "A Wikipedia page: "),
    ("geomes_ids", "https://www.geonames.org/", "A Geonames page: "),
    ("nomisma_ids", "https://nomisma.org/id/", "A Nomisma ID: "),
    ("gettytgn_ids", "http://vocab.getty.edu/page/tgn/", "A Getty TGN ID: "),
    ("loc_ids", "https://id.loc.gov/authorities/subjects/", "A Library of Congress ID: "),
    ("viaf_ids", "https://viaf.org/viaf/", "A VIAF ID: "),
    ("trismegistos_ids", "https://www.trismegistos.org/text/", "A Trismegistos text: ") ]

/-- The JS lookup `properties[key]` on a row, for the keys of `linkTable`. -/
def rowGet (row : Row) (key : String) : Option String :=
  if key == "item" then row.item
  else if key == "wikipedia_en" then row.wikipedia_en
  else if key == "geomes_ids" then row.geomes_ids
  else if key == "nomisma_ids" then row.nomisma_ids
  else if key == "gettytgn_ids" then row.gettytgn_ids
  else if key == "loc_ids" then row.loc_ids
  else if key == "viaf_ids" then row.viaf_ids
  else if key == "trismegistos_ids" then row.trismegistos_ids
  else none

/-- The object pushed by `getLinks` for one table entry (source lines 164-168),
including the dead `key === "hasConnectionsWith"` conditional. -/
def mkLinkEntry (row : Row) (e : String × String × String) : LinkEntry :=
  { identifier := e.2.1 ++ (rowGet row e.1).getD ""
    type := "seeAlso"
    label := e.2.2 ++ (if e.1 == "hasConnectionsWith" then "" else (rowGet row e.1).getD "") }

/-- `getLinks` (source lines 139-174): a reduce over `Object.keys(urls)`
pushing one entry per truthy column value. -/
def getLinks (row : Row) : List LinkEntry :=
  linkTable.foldl
    (fun acc e => if jsTruthy (rowGet row e.1) then acc ++ [mkLinkEntry row e] else acc)
    []

/-- `replaceHyphensInTimePeriodRange` (source lines 263-266). -/
def replaceHyphensInTimePeriodRange (range : Option String) : TPKFormatted :=
  if !jsTruthy range then TPKFormatted.passthrough range
  else TPKFormatted.formatted [joinSep " to " (jsSplit '-' (range.getD ""))]

/-- The error value standing for the `TypeError` a JS call
`undefined.trim()` throws (source lines 195 and 259-261). -/
def trimOfUndefinedError : String :=
  "TypeError: Cannot read properties of undefined (reading trim)"

/-- The `peripleoRecord` object (source lines 269-277), with the string
values `d a tpk i` of `description`, `authors`, `timePeriodsKeys`, `id`
taken as arguments since the source has already called `.trim()` on them
by this point (lines 259-261).  The unused local `fields` array (source
lines 245-257) is dead code and not modelled. -/
def peripleoRecord (row : Row) (d a tpk i : String) : BaseRecord :=
  { atId := jsTrim ("https://pleiades.stoa.org/places/" ++ jsStr row.id)
    type := "Feature"
    properties :=
      { title := row.title
        formattedDate := formatDate row.created
        modifiedDate := formatDate row.modified
        authors := row.authors
        yearAdded := yearAddedOf (formatDate row.created)
        hasConnectionsWith := row.hasConnectionsWith
        timePeriods := row.timePeriods
        locationPrecision := row.locationPrecision
        minDate := row.minDate
        maxDate := row.maxDate
        placeTypes := if jsTruthy row.featureTypes then jsSplit ',' (row.featureTypes.getD "") else []
        timePeriodsKeysFormatted := replaceHyphensInTimePeriodRange row.timePeriodsKeys
        timePeriodsRange := row.timePeriodsRange
        geomes_ids := row.geomes_ids
        gettytgn_ids := row.gettytgn_ids
        idaigaz_ids := row.idaigaz_ids
        loc_ids := row.loc_ids
        nomisma_ids := row.nomisma_ids
        trismegistos_ids := row.trismegistos_ids
        viaf_ids := row.viaf_ids
        wikipedia_en := row.wikipedia_en
        commonsID := row.commonsID
        place := none }
    descriptions :=
      [{ value :=
          stripNewlines (jsTrim d) ++ "<br/>Authors: " ++ stripNewlines (jsTrim a)
          ++ "<br/>Time periods associated: " ++ stripNewlines (jsTrim tpk)
          ++ "<br/>PleiadesID: " ++ stripNewlines (jsTrim i) }] }

/-- The Feature value built on the success path of `buildFeature`
(source lines 191-207): the base record with the trimmed place name,
the Point geometry, and the three optional enrichments spread in. -/
def mkFeature (commonsFn : String → Nat → String) (record : BaseRecord) (p : String)
    (lon lat : Option String) (row : Row) : Feature :=
  { atId := record.atId
    type := record.type
    properties := { record.properties with place := some (jsTrim p) }
    descriptions := record.descriptions
    geometry := getPlace lon lat
    depictions := getDepiction commonsFn row
    types := getTypes row
    links := getLinks row }

/-- `buildFeature` (source lines 186-208).  The guard on line 188 uses
optional chaining (`place?.trim()`), but the body on line 195 calls
`place.trim()` unguarded, which throws when `place` is `undefined`. -/
def buildFeature (commonsFn : String → Nat → String) (record : BaseRecord)
    (place lon lat : Option String) (row : Row) : Except String (Option Feature) :=
  if !jsTruthy (place.map jsTrim) && !jsTruthy (lon.map jsTrim) then Except.ok none
  else
    match place with
    | none => Except.error trimOfUndefinedError
    | some p => Except.ok (some (mkFeature commonsFn record p lon lat row))

/-- The per-row map callback (source lines 228-282).  The unconditional
`.trim()` calls of lines 259-261 throw when `description`, `authors`,
`timePeriodsKeys` or `id` is missing from the row; otherwise the
locatedness gate of line 279 (`locationPrecision` truthy and its trimmed
value not `"unlocated"`) decides whether `buildFeature` runs; a row that
fails the gate yields `undefined` (here `Except.ok none`). -/
def transformRow (commonsFn : String → Nat → String) (row : Row) :
    Except String (Option Feature) :=
  match row.description, row.authors, row.timePeriodsKeys, row.id with
  | some d, some a, some tpk, some i =>
    if jsTruthy row.locationPrecision && (jsTrim (row.locationPrecision.getD "") != "unlocated") then
      buildFeature commonsFn (peripleoRecord row d a tpk i) row.title row.reprLong row.reprLat row
    else Except.ok none
  | _, _, _, _ => Except.error trimOfUndefinedError

/-- `records.data.map(...).filter(Boolean)` (source lines 228-282): the
rows are transformed in order and the `undefined` results dropped; a
`TypeError` thrown for any single row aborts the whole map. -/
def features (commonsFn : String → Nat → String) (rows : List Row) :
    Except String (List Feature) := do
  let opts ← rows.mapM (transformRow commonsFn)
  pure (opts.filterMap id)

/-- The output document `fc` (source lines 283-288). -/
def featureCollection (commonsFn : String → Nat → String) (rows : List Row) :
    Except String FeatureCollection := do
  let fs ← features commonsFn rows
  pure { type := "FeatureCollection", indexing := getIndexing, features := fs }

/-- A concrete stand-in for the external commons-path library, used to
instantiate theorems at concrete rows; no claim inspects the URL it builds. -/
def defaultCommons : String → Nat → String := fun s _ => s

/-- Placeholder feature, only used as the default of `extractFeature`. -/
def emptyFeature : Feature :=
  { atId := ""
    type := ""
    properties :=
      { title := none, formattedDate := "", modifiedDate := "", authors := none
        yearAdded := "", hasConnectionsWith := none, timePeriods := none
        locationPrecision := none, minDate := none, maxDate := none, placeTypes := []
        timePeriodsKeysFormatted := TPKFormatted.passthrough none, timePeriodsRange := none
        geomes_ids := none, gettytgn_ids := none, idaigaz_ids := none, loc_ids := none
        nomisma_ids := none, trismegistos_ids := none, viaf_ids := none
        wikipedia_en := none, commonsID := none, place := none }
    descriptions := []
    geometry := { type := "", coordinates := [] }
    depictions := none
    types := none
    links := [] }

/-- Extract the emitted feature from a successful per-row result. -/
def extractFeature (e : Except String (Option Feature)) : Feature :=
  match e with
  | Except.ok (some f) => f
  | _ => emptyFeature

/-- Link synthesis as the specification words it: for every column of the
fixed table whose value in the record is non-empty, one entry with the
prefix-concatenated identifier, the literal type `seeAlso` and the
prefix-concatenated label, in table order; columns absent from the record
or with empty values are skipped. -/
def linksSpec (row : Row) : List LinkEntry :=
  linkTable.filterMap (fun e =>
    match rowGet row e.1 with
    | none => none
    | some v =>
      if v == "" then none
      else some { identifier := e.2.1 ++ v, type := "seeAlso", label := e.2.2 ++ v })

/-- A record with a present-but-empty locationPrecision: its trimmed value
differs from `unlocated` and it has a non-empty name and longitude, yet the
truthiness check on source line 279 drops it. -/
def c1Row : Row := { locationPrecision := some "", title := some "Roma", reprLong := some "12.5" }

/-- A well-formed located record used to instantiate the gate theorems. -/
def w1Row : Row :=
  { locationPrecision := some "precise", title := some "Forum", reprLong := some "12.485" }

def w1Feature : Feature := extractFeature (transformRow defaultCommons w1Row)

/-- A record with an empty title but a non-empty longitude: it passes the
permissive name-or-longitude gate of `buildFeature`. -/
def c3Row : Row := { title := some "", locationPrecision := some "precise", reprLong := some "12.5" }

/-- A located record whose latitude cell is empty. -/
def c9Row : Row :=
  { locationPrecision := some "precise", title := some "Hill",
    reprLong := some "12.5", reprLat := some "" }

def c9Feature : Feature := extractFeature (transformRow defaultCommons c9Row)

/-- The input row of end-to-end scenario A; the remaining columns are
blank cells, as in a CSV row whose other fields are empty. -/
def rowA : Row :=
  { id := some "123", title := some "Forum Romanum", created := some "1990-01-01",
    locationPrecision := some "precise", reprLong := some "12.485", reprLat := some "41.892" }

def featureA : Feature := extractFeature (transformRow defaultCommons rowA)

/-- A row without a `description` column, as Papa.parse produces for a
short row (for example the row a trailing newline yields). -/
def c4Row : Row := { description := none, locationPrecision := some "precise" }

lemma jsTruthy_map_jsTrim (v : Option String) :
    jsTruthy (v.map jsTrim) = (jsTrim (v.getD "") != "") := by
  cases v <;> rfl

lemma buildFeature_some (commonsFn : String → Nat → String) (record : BaseRecord)
    (t : String) (lon lat : Option String) (row : Row) :
    buildFeature commonsFn record (some t) lon lat row =
      if (jsTrim t != "") || (jsTrim (lon.getD "") != "") then
        Except.ok (some (mkFeature commonsFn record t lon lat row))
      else Except.ok none := by
  unfold buildFeature
  rw [show (some t).map jsTrim = some (jsTrim t) from rfl, jsTruthy_map_jsTrim]
  rw [show jsTruthy (some (jsTrim t)) = (jsTrim t != "") from rfl]
  rcases Bool.eq_false_or_eq_true (jsTrim t != "") with h1 | h1 <;>
    rcases Bool.eq_false_or_eq_true (jsTrim (lon.getD "") != "") with h2 | h2 <;>
      simp [h1, h2]

lemma foldl_pushIf {α β : Type} (p : α → Bool) (g : α → β) :
    ∀ (l : List α) (acc : List β),
      l.foldl (fun acc a => if p a then acc ++ [g a] else acc) acc
        = acc ++ (l.filter p).map g := by
  intro l
  induction l with
  | nil => intro acc; simp
  | cons a t ih =>
    intro acc
    by_cases h : p a = true <;>
      simp [List.foldl_cons, h, ih, List.filter_cons]

lemma getLinks_eq_filter (row : Row) :
    getLinks row
      = (linkTable.filter (fun e => jsTruthy (rowGet row e.1))).map (mkLinkEntry row) :=
  foldl_pushIf _ _ linkTable []

lemma mem_dropWhile_of_mem {p : Char → Bool} {c : Char} (hc : p c = false) :
    ∀ {l : List Char}, c ∈ l → c ∈ l.dropWhile p := by
  intro l
  induction l with
  | nil => intro hm; cases hm
  | cons a t ih =>
    intro hm
    rw [List.dropWhile_cons]
    split
    · rcases List.mem_cons.mp hm with h | h
      · subst h; simp_all
      · exact ih h
    · exact hm

lemma trimChars_ne_nil {c : Char} {l : List Char} (hc : c.isWhitespace = false)
    (hm : c ∈ l) : trimChars l ≠ [] := by
  unfold trimChars
  rw [ne_eq, List.reverse_eq_nil_iff]
  intro hnil
  have h1 : c ∈ (l.dropWhile Char.isWhitespace).reverse := by
    rw [List.mem_reverse]
    exact mem_dropWhile_of_mem hc hm
  have h2 := mem_dropWhile_of_mem hc h1
  rw [hnil] at h2
  cases h2

lemma jsTrim_places_ne_empty (s : Option String) :
    jsTrim ("https://pleiades.stoa.org/places/" ++ jsStr s) ≠ "" := by
  intro h
  have hd : (jsTrim ("https://pleiades.stoa.org/places/" ++ jsStr s)).data = [] := by
    rw [h]
  unfold jsTrim at hd
  have hm : 'h' ∈ ("https://pleiades.stoa.org/places/" ++ jsStr s).data := by
    rw [String.data_append]
    exact List.mem_append_left _ (by decide)
  exact trimChars_ne_nil (by decide) hm hd

lemma transformRow_of_fields (commonsFn : String → Nat → String) (row : Row)
    (d a tpk i : String) (hd : row.description = some d) (ha : row.authors = some a)
    (ht : row.timePeriodsKeys = some tpk) (hi : row.id = some i) :
    transformRow commonsFn row =
      if jsTruthy row.locationPrecision
          && (jsTrim (row.locationPrecision.getD "") != "unlocated") then
        buildFeature commonsFn (peripleoRecord row d a tpk i)
          row.title row.reprLong row.reprLat row
      else Except.ok none := by
  unfold transformRow
  rw [hd, ha, ht, hi]

lemma transformRow_ok_some_inv (commonsFn : String → Nat → String) (row : Row) (f : Feature)
    (h : transformRow commonsFn row = Except.ok (some f)) :
    ∃ d a tpk i t,
      row.description = some d ∧ row.authors = some a ∧
      row.timePeriodsKeys = some tpk ∧ row.id = some i ∧ row.title = some t ∧
      (jsTruthy row.locationPrecision
        && (jsTrim (row.locationPrecision.getD "") != "unlocated")) = true ∧
      (!jsTruthy (some (jsTrim t)) && !jsTruthy (row.reprLong.map jsTrim)) = false ∧
      f = mkFeature commonsFn (peripleoRecord row d a tpk i) t row.reprLong row.reprLat row := by
  rcases hd : row.description with _ | d
  case none =>
    exfalso; unfold transformRow at h; rw [hd] at h; simp at h
  rcases ha : row.authors with _ | a
  case none =>
    exfalso; unfold transformRow at h; rw [hd, ha] at h; simp at h
  rcases ht : row.timePeriodsKeys with _ | tpk
  case none =>
    exfalso; unfold transformRow at h; rw [hd, ha, ht] at h; simp at h
  rcases hi : row.id with _ | i
  case none =>
    exfalso; unfold transformRow at h; rw [hd, ha, ht, hi] at h; simp at h
  unfold transformRow at h
  rw [hd, ha, ht, hi] at h
  dsimp only at h
  split at h
  case isTrue hgate =>
    unfold buildFeature at h
    rcases hti : row.title with _ | t <;> rw [hti] at h
    case none =>
      exfalso
      split at h
      · simp at h
      · dsimp only at h; simp at h
    case some =>
      split at h
      case isTrue hc => simp at h
      case isFalse hc =>
        dsimp only at h
        rw [Except.ok.injEq, Option.some.injEq] at h
        refine ⟨d, a, tpk, i, t, rfl, rfl, rfl, rfl, rfl, hgate, ?_, h.symm⟩
        rw [Bool.eq_false_iff]
        simpa using hc
  case isFalse hgate => simp at h

lemma mapM_ok_inv (commonsFn : String → Nat → String) :
    ∀ (rows : List Row) (opts : List (Option Feature)),
      rows.mapM (transformRow commonsFn) = Except.ok opts →
      ∀ o ∈ opts, ∃ row ∈ rows, transformRow commonsFn row = Except.ok o := by
  intro rows
  induction rows with
  | nil =>
    intro opts h o ho
    simp only [List.mapM_nil, pure, Except.pure, Except.ok.injEq] at h
    subst h
    cases ho
  | cons r rs ih =>
    intro opts h o ho
    rw [List.mapM_cons] at h
    cases htr : transformRow commonsFn r with
    | error e =>
      rw [htr] at h
      simp [Bind.bind, Except.bind] at h
    | ok b =>
      rw [htr] at h
      cases hrs : rs.mapM (transformRow commonsFn) with
      | error e =>
        rw [hrs] at h
        simp [Bind.bind, Except.bind] at h
      | ok bs =>
        rw [hrs] at h
        simp only [Bind.bind, Except.bind, pure, Except.pure, Except.ok.injEq] at h
        subst h
        rcases List.mem_cons.mp ho with hob | hobs
        · exact ⟨r, List.mem_cons_self r rs, hob ▸ htr⟩
        · rcases ih bs hrs o hobs with ⟨row, hrow, hrowt⟩
          exact ⟨row, List.mem_cons_of_mem r hrow, hrowt⟩

lemma features_mem_inv (commonsFn : String → Nat → String) (rows : List Row)
    (fs : List Feature) (h : features commonsFn rows = Except.ok fs)
    (f : Feature) (hf : f ∈ fs) :
    ∃ row ∈ rows, transformRow commonsFn row = Except.ok (some f) := by
  unfold features at h
  cases hm : rows.mapM (transformRow commonsFn) with
  | error e =>
    rw [hm] at h
    simp [Bind.bind, Except.bind] at h
  | ok opts =>
    rw [hm] at h
    simp only [Bind.bind, Except.bind, pure, Except.pure, Except.ok.injEq] at h
    subst h
    rcases List.mem_filterMap.mp hf with ⟨o, ho, hid⟩
    rcases mapM_ok_inv commonsFn rows opts hm o ho with ⟨row, hrow, hrowt⟩
    exact ⟨row, hrow, by rw [hrowt]; cases o <;> simp_all [id]⟩

lemma filterMap_eq_filter_map {α β : Type} (f : α → Option β) (p : α → Bool) (g : α → β) :
    ∀ (l : List α), (∀ e ∈ l, f e = if p e then some (g e) else none) →
      l.filterMap f = (l.filter p).map g := by
  intro l
  induction l with
  | nil => intro _; rfl
  | cons x t ih =>
    intro h
    have hx := h x (List.mem_cons_self x t)
    have ht := ih (fun e he => h e (List.mem_cons_of_mem x he))
    by_cases hp : p x = true
    · rw [hp, if_pos rfl] at hx
      simp [List.filterMap_cons, List.filter_cons, hx, hp, ht]
    · rw [Bool.eq_false_iff.mpr hp] at hx
      simp only [Bool.false_eq_true, if_false] at hx
      simp [List.filterMap_cons, List.filter_cons, hx, hp, ht]

lemma linkEntry_pointwise (row : Row) (e : String × String × String) (he : e ∈ linkTable) :
    (match rowGet row e.1 with
      | none => none
      | some v =>
        if v == "" then none
        else some { identifier := e.2.1 ++ v, type := "seeAlso", label := e.2.2 ++ v : LinkEntry })
    = if jsTruthy (rowGet row e.1) then some (mkLinkEntry row e) else none := by
  have hk : (e.1 == "hasConnectionsWith") = false := by
    simp only [linkTable, List.mem_cons, List.not_mem_nil, or_false] at he
    rcases he with rfl | rfl | rfl | rfl | rfl | rfl | rfl | rfl <;> rfl
  cases hv : rowGet row e.1 with
  | none => simp [jsTruthy]
  | some v =>
    by_cases hve : v == ""
    · have : v = "" := by simpa using hve
      subst this
      simp [jsTruthy]
    · have hne : v ≠ "" := by simpa using hve
      simp [jsTruthy, hve, mkLinkEntry, hv, hk, hne]

/-- Claim C1, counterexample.  The row `c1Row` has a present but empty
location-precision field, whose trimmed value differs from `unlocated`,
and a non-empty trimmed place name (and longitude), so under the claim a
Feature must be emitted; the code instead drops the row (`Except.ok none`)
because the gate on source line 279 also requires `locationPrecision` to
be truthy. -/
theorem C1_counterexample :
    jsTrim (c1Row.locationPrecision.getD "") ≠ "unlocated" ∧
    (jsTrim (c1Row.title.getD "") ≠ "" ∨ jsTrim (c1Row.reprLong.getD "") ≠ "") ∧
    transformRow defaultCommons c1Row = Except.ok none :=
  ⟨by decide, Or.inl (by decide), rfl⟩

/-- Claim C1, amended.  For a row whose description, authors,
timePeriodsKeys, id and title columns are present, a Feature is emitted
if and only if the location-precision field is non-empty (truthy), its
trimmed value is not the literal `unlocated`, and the trimmed place name
or the trimmed longitude is non-empty; a record failing this gate is
silently dropped, contributing no Feature and no error. -/
theorem C1_amended_gate (commonsFn : String → Nat → String) (row : Row)
    (d a tpk i t : String)
    (hd : row.description = some d) (ha : row.authors = some a)
    (ht : row.timePeriodsKeys = some tpk) (hi : row.id = some i)
    (hti : row.title = some t) :
    ((∃ f, transformRow commonsFn row = Except.ok (some f)) ↔
      (jsTruthy row.locationPrecision = true ∧
       jsTrim (row.locationPrecision.getD "") ≠ "unlocated" ∧
       (jsTrim t ≠ "" ∨ jsTrim (row.reprLong.getD "") ≠ ""))) ∧
    (¬ (jsTruthy row.locationPrecision = true ∧
        jsTrim (row.locationPrecision.getD "") ≠ "unlocated" ∧
        (jsTrim t ≠ "" ∨ jsTrim (row.reprLong.getD "") ≠ "")) →
      transformRow commonsFn row = Except.ok none) := by
  rw [transformRow_of_fields commonsFn row d a tpk i hd ha ht hi, hti, buildFeature_some]
  by_cases hc1 : (jsTruthy row.locationPrecision
      && (jsTrim (row.locationPrecision.getD "") != "unlocated")) = true
  · by_cases hc2 : ((jsTrim t != "") || (jsTrim (row.reprLong.getD "") != "")) = true
    · rw [if_pos hc1, if_pos hc2]
      simp only [Bool.and_eq_true, bne_iff_ne, ne_eq] at hc1
      simp only [Bool.or_eq_true, bne_iff_ne, ne_eq] at hc2
      have hP : jsTruthy row.locationPrecision = true ∧
          jsTrim (row.locationPrecision.getD "") ≠ "unlocated" ∧
          (jsTrim t ≠ "" ∨ jsTrim (row.reprLong.getD "") ≠ "") := ⟨hc1.1, hc1.2, hc2⟩
      constructor
      · exact ⟨fun _ => hP, fun _ => ⟨_, rfl⟩⟩
      · intro hn; exact absurd hP hn
    · rw [if_pos hc1, if_neg hc2]
      simp only [Bool.or_eq_true, bne_iff_ne, ne_eq] at hc2
      push_neg at hc2
      constructor
      · constructor
        · intro ⟨f, hf⟩; exact absurd hf (by simp)
        · intro ⟨_, _, h3⟩
          rcases h3 with h3 | h3
          · exact (h3 hc2.1).elim
          · exact (h3 hc2.2).elim
      · intro _; rfl
  · rw [if_neg hc1]
    simp only [Bool.and_eq_true, bne_iff_ne, ne_eq, not_and] at hc1
    constructor
    · constructor
      · intro ⟨f, hf⟩; exact absurd hf (by simp)
      · intro ⟨h1, h2, _⟩; exact (h2 (not_not.mp (hc1 h1))).elim
    · intro _; rfl

/-- Witness for the amended claim C1 at the concrete row `w1Row`. -/
theorem C1_amended_gate_witness :
    ∃ f, transformRow defaultCommons w1Row = Except.ok (some f) :=
  (C1_amended_gate defaultCommons w1Row "" "" "" "" "Forum" rfl rfl rfl rfl rfl).1.mpr
    ⟨rfl, by decide, Or.inl (by decide)⟩

/-- Claim C2.  Date handling evaluated on the inputs the claim names:
a well-formed `YYYY-MM-DD` string becomes its `DD/MM/YYYY` display form
and its four-digit year, but an empty or unparseable created date yields
the literal string `Invalid date` (not an absent value) and a year-added
of the malformed string `NaN` (not an absence marker): the `|| null`
fallback on source line 242 can never fire because `"NaN"` is truthy. -/
theorem C2_date_eval :
    formatDate (some "2020-03-15") = "15/03/2020" ∧
    yearAddedOf (formatDate (some "2020-03-15")) = "2020" ∧
    formatDate (some "") = "Invalid date" ∧
    formatDate (some "not-a-date") = "Invalid date" ∧
    yearAddedOf (formatDate (some "")) = "NaN" :=
  ⟨rfl, rfl, rfl, rfl, rfl⟩

/-- Claim C3, counterexample.  The row `c3Row` has an empty title and a
non-empty longitude; it passes the permissive gate and the code emits a
Feature whose trimmed place name is the empty string, refuting the
claimed invariant that every emitted Feature has a non-empty place name. -/
theorem C3_counterexample :
    Except.map (Option.map (fun f => f.properties.place)) (transformRow defaultCommons c3Row)
      = Except.ok (some (some "")) := rfl

/-- Claim C3, amended.  Every Feature in a successfully produced output
has a non-empty `@id`, a Point geometry, and a place name that is the
trimmed title of its source row; the place name may be empty, but only
when the trimmed longitude of its source row is non-empty (when the
longitude trims empty, the gate forces the place name to be non-empty). -/
theorem C3_amended_invariant (commonsFn : String → Nat → String) (rows : List Row)
    (fs : List Feature) (h : features commonsFn rows = Except.ok fs)
    (f : Feature) (hf : f ∈ fs) :
    f.atId ≠ "" ∧ f.geometry.type = "Point" ∧
    (∃ t, f.properties.place = some (jsTrim t)) ∧
    (∃ row ∈ rows, transformRow commonsFn row = Except.ok (some f) ∧
      (jsTruthy (row.reprLong.map jsTrim) = false → f.properties.place ≠ some "")) := by
  rcases features_mem_inv commonsFn rows fs h f hf with ⟨row, hrow, htr⟩
  rcases transformRow_ok_some_inv commonsFn row f htr with
    ⟨d, a, tpk, i, t, hd, ha, ht2, hi, hti, hgate, hplace, hfe⟩
  subst hfe
  refine ⟨jsTrim_places_ne_empty row.id, rfl, ⟨t, rfl⟩, ⟨row, hrow, htr, ?_⟩⟩
  intro hlon
  rw [hlon] at hplace
  simp only [Bool.not_false, Bool.and_true, Bool.not_eq_false] at hplace
  intro hc
  have hts : jsTrim t = "" := Option.some.inj hc
  rw [show jsTruthy (some (jsTrim t)) = (jsTrim t != "") from rfl, hts] at hplace
  simp at hplace

/-- Witness for the amended claim C3 at the one-row input `[w1Row]`. -/
theorem C3_amended_invariant_witness :
    w1Feature.atId ≠ "" ∧ w1Feature.geometry.type = "Point" ∧
    (∃ t, w1Feature.properties.place = some (jsTrim t)) ∧
    (∃ row ∈ [w1Row], transformRow defaultCommons row = Except.ok (some w1Feature) ∧
      (jsTruthy (row.reprLong.map jsTrim) = false → w1Feature.properties.place ≠ some "")) :=
  C3_amended_invariant defaultCommons [w1Row] [w1Feature] rfl w1Feature
    (List.mem_singleton.mpr rfl)

/-- Claim C4.  A missing per-row field does abort the whole run: the row
`c4Row`, which lacks its description column, makes the per-row callback
throw (the unguarded `description.trim()` on source line 259), and with
that row present the whole map over `[rowA, c4Row]` fails, so the defect
in one row destroys the output of the healthy sibling row as well. -/
theorem C4_throw_eval :
    transformRow defaultCommons c4Row = Except.error trimOfUndefinedError ∧
    features defaultCommons [rowA, c4Row] = Except.error trimOfUndefinedError :=
  ⟨rfl, rfl⟩

/-- Claim C5.  Link synthesis over the fixed eight-authority table:
for every record, `getLinks` emits exactly one entry per table column
whose value is non-empty, in table order, with the prefix-concatenated
identifier, literal type `seeAlso`, and prefix-concatenated label;
absent or empty columns are skipped (this is `linksSpec`, the claim
worded as a function). -/
theorem C5_link_synthesis :
    linkTable.length = 8 ∧ ∀ row : Row, getLinks row = linksSpec row := by
  refine ⟨rfl, ?_⟩
  intro row
  rw [getLinks_eq_filter]
  unfold linksSpec
  exact (filterMap_eq_filter_map _ _ _ linkTable (linkEntry_pointwise row)).symm

/-- Claim C6.  For every emitted Feature: an empty or missing commonsID
yields no depictions key at all (`none`, not an empty list), and when
neither type pair (wikiInstanceOf with site_sub_type, wikidataEntityID
with heritage_category) is complete there is no types key at all. -/
theorem C6_optional_omission (commonsFn : String → Nat → String) (row : Row) (f : Feature)
    (h : transformRow commonsFn row = Except.ok (some f)) :
    (jsTruthy row.commonsID = false → f.depictions = none) ∧
    ((jsTruthy row.wikiInstanceOf && jsTruthy row.site_sub_type) = false →
     (jsTruthy row.wikidataEntityID && jsTruthy row.heritage_category) = false →
     f.types = none) := by
  rcases transformRow_ok_some_inv commonsFn row f h with
    ⟨d, a, tpk, i, t, _, _, _, _, _, _, _, hfe⟩
  subst hfe
  constructor
  · intro hc
    show getDepiction commonsFn row = none
    unfold getDepiction
    rw [hc]
    rfl
  · intro h1 h2
    show getTypes row = none
    unfold getTypes
    rw [h1, h2]
    rfl

/-- Witness for claim C6 at the concrete row `w1Row`, whose commonsID and
type-pair columns are blank. -/
theorem C6_optional_omission_witness :
    w1Feature.depictions = none ∧ w1Feature.types = none :=
  ⟨(C6_optional_omission defaultCommons w1Row w1Feature rfl).1 rfl,
   (C6_optional_omission defaultCommons w1Row w1Feature rfl).2 rfl rfl⟩

/-- Claim C7, end-to-end scenario A.  On the single input row `rowA` the
output is exactly one Feature, whose `@id`, coordinates (as the exact
rational values `JSON.stringify` would print), formatted date and year
added are the claimed values. -/
theorem C7_scenarioA :
    features defaultCommons [rowA] = Except.ok [featureA] ∧
    featureA.atId = "https://pleiades.stoa.org/places/123" ∧
    featureA.geometry.coordinates.map JSNum.toJson = [some (12.485 : ℚ), some (41.892 : ℚ)] ∧
    featureA.properties.formattedDate = "01/01/1990" ∧
    featureA.properties.yearAdded = "1990" := by
  refine ⟨rfl, rfl, ?_, rfl, rfl⟩
  have h : featureA.geometry.coordinates = [JSNum.num 12485 3, JSNum.num 41892 3] := rfl
  rw [h]
  simp only [List.map_cons, List.map_nil, JSNum.toJson, List.cons.injEq, Option.some.injEq,
    and_true]
  constructor <;> norm_num

/-- Claim C9.  Coordinates undergo no validation: every emitted Feature
carries exactly `[parseFloat lon, parseFloat lat]` as its Point
coordinates, and when the latitude does not parse the `NaN` in that
position serializes to JSON `null` while the Feature is still emitted. -/
theorem C9_coordinates_passthrough (commonsFn : String → Nat → String) (row : Row) (f : Feature)
    (h : transformRow commonsFn row = Except.ok (some f)) :
    f.geometry = getPlace row.reprLong row.reprLat ∧
    f.geometry.coordinates = [parseFloat row.reprLong, parseFloat row.reprLat] ∧
    (parseFloat row.reprLat = JSNum.nan →
      f.geometry.coordinates.map JSNum.toJson = [(parseFloat row.reprLong).toJson, none]) := by
  rcases transformRow_ok_some_inv commonsFn row f h with
    ⟨d, a, tpk, i, t, _, _, _, _, _, _, _, hfe⟩
  subst hfe
  refine ⟨rfl, rfl, ?_⟩
  intro hnan
  show [parseFloat row.reprLong, parseFloat row.reprLat].map JSNum.toJson = _
  rw [hnan]
  rfl

/-- Witness for claim C9 at the concrete row `c9Row`, whose latitude cell
is empty: the Feature is still emitted and its second coordinate is the
`NaN` that serializes to `null`. -/
theorem C9_coordinates_passthrough_witness :
    c9Feature.geometry.coordinates = [parseFloat (some "12.5"), parseFloat (some "")] ∧
    c9Feature.geometry.coordinates.map JSNum.toJson = [(parseFloat (some "12.5")).toJson, none] :=
  ⟨(C9_coordinates_passthrough defaultCommons c9Row c9Feature rfl).2.1,
   (C9_coordinates_passthrough defaultCommons c9Row c9Feature rfl).2.2 rfl⟩

/-- Claim C10.  Unlike depictions and types, the links key is never
omitted: every emitted Feature carries exactly `getLinks` of its row
(the key is always present, since `getLinks` always returns a links
property), and it is the empty sequence when no recognized
external-authority column of the record is populated. -/
theorem C10_links_always_present (commonsFn : String → Nat → String) (row : Row) (f : Feature)
    (h : transformRow commonsFn row = Except.ok (some f)) :
    f.links = getLinks row ∧
    (linkTable.all (fun e => !jsTruthy (rowGet row e.1)) = true → f.links = []) := by
  rcases transformRow_ok_some_inv commonsFn row f h with
    ⟨d, a, tpk, i, t, _, _, _, _, _, _, _, hfe⟩
  subst hfe
  refine ⟨rfl, ?_⟩
  intro hall
  show getLinks row = []
  have hnil : linkTable.filter (fun e => jsTruthy (rowGet row e.1)) = [] := by
    rw [List.filter_eq_nil_iff]
    intro e he
    have h1 := List.all_eq_true.mp hall e he
    simp only [Bool.not_eq_true'] at h1
    simp [h1]
  rw [getLinks_eq_filter, hnil]
  rfl

/-- Witness for claim C10 at the concrete row `w1Row`, none of whose
authority columns is populated: its links value is the empty sequence. -/
theorem C10_links_always_present_witness :
    w1Feature.links = getLinks w1Row ∧ w1Feature.links = [] :=
  ⟨(C10_links_always_present defaultCommons w1Row w1Feature rfl).1,
   (C10_links_always_present defaultCommons w1Row w1Feature rfl).2 rfl⟩

end Pleiades
